import Mathlib

/-!
Verification of the PyRS core (geometric reduction + strain/stress engine) against its
natural-language specification.  Definitions are shallow embeddings of the Python source:

* `pyrs/core/reduce_hb2b_pyrs.py` — rotation kernel, instrument model, histogram reducer;
* `pyrs/core/strain_stress_calculator.py` — `StrainStress` strain→stress computation;
* `pyrs/dataobjects/fields.py` is not part of the sources at hand (only its unit tests are),
  so the scalar-field-sample operations it provides are modelled from the specification text.

Python floats are modelled as exact rationals (`ℚ`) where the embedded computation is purely
arithmetic, and as real numbers (`ℝ`) where trigonometry or square roots occur.  A Python
runtime failure (raised exception) is modelled as an `Except PyErr` error value.
-/

namespace PyRS

open Matrix

/-- Failure classes of the core, following the specification's error taxonomy (§7) plus the
Python runtime errors that actually occur in the source: `typeError` models a `TypeError`
(e.g. calling a float), `unboundLocal` models an `UnboundLocalError` (reading a local variable
on a path where it was never assigned), `valueError` models a `ValueError` raised by numpy. -/
inductive PyErr where
  | typeError
  | unboundLocal
  | notBuilt
  | missingWavelength
  | invalidRange
  | shapeMismatch
  | valueError
  deriving DecidableEq

/-! ## Rotation/Geometry kernel (`reduce_hb2b_pyrs.py`) -/

/-- `ResidualStressInstrument._cal_rotation_matrix_x` (lines 216-228): rotation matrix about
the X axis for an angle in radians. -/
noncomputable def calRotationMatrixX (a : ℝ) : Matrix (Fin 3) (Fin 3) ℝ :=
  Matrix.of ![![1, 0, 0],
              ![0, Real.cos a, -Real.sin a],
              ![0, Real.sin a, Real.cos a]]

/-- `ResidualStressInstrument._cal_rotation_matrix_y` (lines 230-242): rotation matrix about
the Y axis for an angle in radians. -/
noncomputable def calRotationMatrixY (a : ℝ) : Matrix (Fin 3) (Fin 3) ℝ :=
  Matrix.of ![![Real.cos a, 0, Real.sin a],
              ![0, 1, 0],
              ![-Real.sin a, 0, Real.cos a]]

/-- `ResidualStressInstrument._cal_rotation_matrix_z` (lines 244-256): rotation matrix about
the Z axis for an angle in radians. -/
noncomputable def calRotationMatrixZ (a : ℝ) : Matrix (Fin 3) (Fin 3) ℝ :=
  Matrix.of ![![Real.cos a, -Real.sin a, 0],
              ![Real.sin a, Real.cos a, 0],
              ![0, 0, 1]]

/-- `ResidualStressInstrument.generate_rotation_matrix` (lines 200-214): the composed
calibration rotation, `rot_x_matrix * rot_y_matrix * rot_z_matrix` (X then Y then Z,
`numpy.matrix` multiplication = matrix multiplication). -/
noncomputable def generateRotationMatrix (rx ry rz : ℝ) : Matrix (Fin 3) (Fin 3) ℝ :=
  calRotationMatrixX rx * calRotationMatrixY ry * calRotationMatrixZ rz

/-! ## Instrument model (`reduce_hb2b_pyrs.py`, class `ResidualStressInstrument`) -/

/-- `AnglerCameraDetectorShift`: the six calibration offsets — translations along X, Y, Z
and rotations about X, Y, Z in degrees — applied to the detector panel before it is swung
to its 2θ position. -/
structure AnglerCameraDetectorShift where
  centerShiftX : ℝ
  centerShiftY : ℝ
  centerShiftZ : ℝ
  rotationX : ℝ
  rotationY : ℝ
  rotationZ : ℝ

/-- `ResidualStressInstrument._rotate_detector` (lines 36-51) acting on one pixel position:
the double loop computes `rotate_det[..., i] = Σ_j rotation_matrix[i, j] * det[..., j]`. -/
noncomputable def rotateDetector (rotationMatrix : Matrix (Fin 3) (Fin 3) ℝ)
    (pixel : Fin 3 → ℝ) : Fin 3 → ℝ :=
  fun i => ∑ j : Fin 3, rotationMatrix i j * pixel j

/-- The composed calibration rotation of `build_instrument` (lines 120-123): the three
calibration rotation angles are converted from degrees to radians and combined by
`generate_rotation_matrix`. -/
noncomputable def calibRotationMatrix (calibration : AnglerCameraDetectorShift) :
    Matrix (Fin 3) (Fin 3) ℝ :=
  generateRotationMatrix (calibration.rotationX * Real.pi / 180)
    (calibration.rotationY * Real.pi / 180) (calibration.rotationZ * Real.pi / 180)

/-- `ResidualStressInstrument.build_instrument` (lines 91-145) acting on one raw pixel
position (the source applies the same arithmetic elementwise to the whole pixel matrix).
With a calibration: lines 115-116 shift X and Y by the center shifts, line 126 rotates
about the origin by the composed calibration rotation, and lines 129-135 push the panel
along Z by `arm_length + center_shift_z`; without a calibration only the push along Z by
`arm_length` happens.  Lines 137-140 finally rotate the pixel set about the Y axis by
`two_theta * π / 180`. -/
noncomputable def buildInstrumentPixel (armLength twoTheta : ℝ)
    (calibration : Option AnglerCameraDetectorShift) (pixel : Fin 3 → ℝ) : Fin 3 → ℝ :=
  let shifted : Fin 3 → ℝ :=
    match calibration with
    | some calib =>
        rotateDetector (calibRotationMatrix calib)
          ![pixel 0 + calib.centerShiftX, pixel 1 + calib.centerShiftY, pixel 2]
    | none => pixel
  let armL2 : ℝ :=
    match calibration with
    | some calib => armLength + calib.centerShiftZ
    | none => armLength
  let pushed : Fin 3 → ℝ := ![shifted 0, shifted 1, shifted 2 + armL2]
  rotateDetector (calRotationMatrixY (twoTheta * Real.pi / 180)) pushed

/-- Specification-side description of the `build_instrument` pipeline, written from the
words of the claim: translate pixel X and Y by the center shifts. -/
noncomputable def translateXY (dx dy : ℝ) (p : Fin 3 → ℝ) : Fin 3 → ℝ :=
  ![p 0 + dx, p 1 + dy, p 2]

/-- Specification-side description: translate the pixel along Z by `dz`. -/
noncomputable def translateZ (dz : ℝ) (p : Fin 3 → ℝ) : Fin 3 → ℝ :=
  ![p 0, p 1, p 2 + dz]

/-- Specification-side description of the whole `build_instrument` pipeline, written from
the words of the claim: when a calibration is given, translate X and Y by the center
shifts, rotate about the origin by the composed calibration rotation matrix, then translate
along Z by (nominal arm length + center shift Z); with no calibration translate along Z by
the nominal arm length only; finally rotate about the Y axis by 2θ in radians. -/
noncomputable def buildInstrumentPixelSpec (armLength twoTheta : ℝ)
    (calibration : Option AnglerCameraDetectorShift) (p : Fin 3 → ℝ) : Fin 3 → ℝ :=
  (calRotationMatrixY (twoTheta * Real.pi / 180)).mulVec
    (match calibration with
     | some calib =>
         translateZ (armLength + calib.centerShiftZ)
           ((calibRotationMatrix calib).mulVec
             (translateXY calib.centerShiftX calib.centerShiftY p))
     | none => translateZ armLength p)

/-- `ResidualStressInstrument._calculate_pixel_2theta` (lines 147-198) for one pixel:
normalize the pixel position by its euclidean length, dot it with the incident-beam
direction `k_in_vec = [0, 0, 1]`, and convert the arccos of the dot product to degrees. -/
noncomputable def calculatePixel2theta (p : Fin 3 → ℝ) : ℝ :=
  let detPosNorm : ℝ := Real.sqrt (p 0 ^ 2 + p 1 ^ 2 + p 2 ^ 2)
  let diffAngleCos : ℝ := p 0 / detPosNorm * 0 + p 1 / detPosNorm * 0 + p 2 / detPosNorm * 1
  Real.arccos diffAngleCos * 180 / Real.pi

/-- State of a `ResidualStressInstrument` (lines 14-34).  The raw pixel layout is fixed at
construction; the calibrated pixel matrix and the per-pixel 2θ matrix exist only after
`build_instrument`; the wavelength exists only after `set_wave_length`.  The pixel matrix
is kept as the flattened list of 3-D positions (its row/column structure plays no role in
the embedded claims). -/
structure Instrument where
  armLength : ℝ
  rawPixelMatrix : List (Fin 3 → ℝ)
  pixelMatrix : Option (List (Fin 3 → ℝ))
  pixel2thetaMatrix : Option (List ℝ)
  waveLength : Option ℝ

/-- `ResidualStressInstrument.__init__` (lines 14-34): `_pixel_matrix`,
`_pixel_2theta_matrix` and `_wave_length` all start out as `None`. -/
def mkInstrument (armLength : ℝ) (rawPixelMatrix : List (Fin 3 → ℝ)) : Instrument :=
  ⟨armLength, rawPixelMatrix, none, none, none⟩

/-- `ResidualStressInstrument.set_wave_length` (lines 323-324). -/
def setWaveLength (s : Instrument) (w : ℝ) : Instrument :=
  { s with waveLength := some w }

/-- `ResidualStressInstrument.build_instrument` at the state level (lines 91-145): rebuild
the calibrated pixel matrix from the raw layout and derive the per-pixel 2θ matrix
(line 143 calls `_calculate_pixel_2theta`). -/
noncomputable def buildInstrument (s : Instrument) (twoTheta : ℝ)
    (calibration : Option AnglerCameraDetectorShift) : Instrument :=
  let pm := s.rawPixelMatrix.map (buildInstrumentPixel s.armLength twoTheta calibration)
  { s with pixelMatrix := some pm, pixel2thetaMatrix := some (pm.map calculatePixel2theta) }

/-- `ResidualStressInstrument.get_pixel_matrix` (lines 258-266): raises
`RuntimeError('Instrument has not been built yet')` while `_pixel_matrix` is `None`. -/
def getPixelMatrix (s : Instrument) : Except PyErr (List (Fin 3 → ℝ)) :=
  match s.pixelMatrix with
  | none => .error .notBuilt
  | some m => .ok m

/-- `ResidualStressInstrument.get_pixel_array` (lines 305-321): the same not-built guard,
then the pixel list flattened in pixel-ID order (the third dimension always has size 3 in
this typed embedding, so the shape guard of lines 314-316 cannot fire). -/
def getPixelArray (s : Instrument) : Except PyErr (List (Fin 3 → ℝ)) :=
  match s.pixelMatrix with
  | none => .error .notBuilt
  | some m => .ok m

/-- `ResidualStressInstrument.get_pixels_2theta` (lines 268-283): raises while
`_pixel_2theta_matrix` is `None`; the `dimension` parameter only chooses between the matrix
and its flattening, which coincide in this list embedding. -/
def getPixels2theta (s : Instrument) : Except PyErr (List ℝ) :=
  match s.pixel2thetaMatrix with
  | none => .error .notBuilt
  | some m => .ok m

/-- `ResidualStressInstrument.get_dspacing_value` (lines 285-303): fetch the per-pixel 2θ
array (not-built guard), report its min and max (numpy raises `ValueError` on an empty
array), then evaluate `0.5 * self._wave_length / numpy.sin(0.5 * 2θ * π / 180)` (line 297).
With no wavelength set, `_wave_length` is `None` and `0.5 * None` raises — the failure the
specification labels MissingWavelength. -/
noncomputable def getDspacingValue (s : Instrument) : Except PyErr (List ℝ) :=
  match getPixels2theta s with
  | .error e => .error e
  | .ok twoThetaArray =>
    if twoThetaArray.isEmpty then .error .valueError
    else
      match s.waveLength with
      | none => .error .missingWavelength
      | some wl =>
          .ok (twoThetaArray.map fun t => 0.5 * wl / Real.sin (0.5 * t * Real.pi / 180))

/-! ## Strain → stress (`strain_stress_calculator.py`, class `StrainStress`) -/

/-- Calling a Python float as if it were a function raises `TypeError` (a float is never
callable).  Used to embed line 188, where `(1 + self._nu)` is immediately applied to the
parenthesized strain expression because the `*` operator is missing. -/
def pyCallFloat (n : ℕ) (_f : ℚ) (_arg : Fin n → ℚ) : Except PyErr (Fin n → ℚ) :=
  .error .typeError

/-- `StrainStress._calculate_stress_component` (lines 176-191).  The right-hand side of the
assignment at line 188 is
`self._E / (1 + self._nu)(self._epsilon[direction] + self._nu / (1 - 2 * self._nu) *
(self._epsilon.sum(axis=0)))`: Python first evaluates the float `1 + nu`, then the strain
argument array, then applies the float to it, and only then would it divide. -/
def calculateStressComponent (n : ℕ) (youngModulus nu : ℚ) (epsilon : Fin 3 → Fin n → ℚ)
    (direction : Fin 3) : Except PyErr (Fin n → ℚ) :=
  let callee : ℚ := 1 + nu
  let arg : Fin n → ℚ := fun j =>
    epsilon direction j + nu / (1 - 2 * nu) * (∑ i : Fin 3, epsilon i j)
  match pyCallFloat n callee arg with
  | .error e => .error e
  | .ok denom => .ok fun j => youngModulus / denom j

/-- `StrainStress._calculate_stress_component_error` (lines 149-174), translated verbatim:
the quantities the source's comment calls partial derivatives are
`1 + ν/(1-2ν)·(ε_ax2 + ε_ax3)`, `ν/(1-2ν)·(ε_ax1 + ε_ax3)` and `ν/(1-2ν)·(ε_ax1 + ε_ax2)`;
they are combined in quadrature with the strain errors and scaled by `E/(1+ν)`. -/
noncomputable def calculateStressComponentError (n : ℕ) (youngModulus nu : ℝ)
    (epsilon epsilonError : Fin 3 → Fin n → ℝ) (ax1 ax2 ax3 : Fin 3) : Fin n → ℝ :=
  let dSigDAx1 : Fin n → ℝ := fun j => 1 + nu / (1 - 2 * nu) * (epsilon ax2 j + epsilon ax3 j)
  let dSigDAx2 : Fin n → ℝ := fun j => nu / (1 - 2 * nu) * (epsilon ax1 j + epsilon ax3 j)
  let dSigDAx3 : Fin n → ℝ := fun j => nu / (1 - 2 * nu) * (epsilon ax1 j + epsilon ax2 j)
  fun j => youngModulus / (1 + nu) *
    Real.sqrt (dSigDAx1 j ^ 2 * epsilonError ax1 j ^ 2 +
               dSigDAx2 j ^ 2 * epsilonError ax2 j ^ 2 +
               dSigDAx3 j ^ 2 * epsilonError ax3 j ^ 2)

/-- `StrainStress._setup_strain_stress_matrix` (lines 106-147).  Inputs are the
`get_microstrain()` value/error pairs of the three peak collections, converted from
microstrain to strain by the `1e-6` factor.  In the `is_plane_strain` branch both `eps_3`
and `delta_eps_3` are set to zero; in the `is_plane_stress` branch (line 130) only
`eps_3 = nu / (nu - 1.) * (eps_1 + eps_2)` is assigned and `delta_eps_3` stays unassigned
(modelled as `none`), so the read `self._epsilon_error[2] = delta_eps_3` at line 147 raises
`UnboundLocalError`. -/
def setupStrainStressMatrix (n : ℕ) (nu : ℚ)
    (peak1 peak2 peak3 : (Fin n → ℚ) × (Fin n → ℚ)) (isPlaneStrain isPlaneStress : Bool) :
    Except PyErr ((Fin 3 → Fin n → ℚ) × (Fin 3 → Fin n → ℚ)) :=
  let eps1 : Fin n → ℚ := fun j => peak1.1 j * (1 / 1000000)
  let deltaEps1 : Fin n → ℚ := fun j => peak1.2 j * (1 / 1000000)
  let eps2 : Fin n → ℚ := fun j => peak2.1 j * (1 / 1000000)
  let deltaEps2 : Fin n → ℚ := fun j => peak2.2 j * (1 / 1000000)
  let eps3 : Fin n → ℚ :=
    if isPlaneStrain then fun _ => 0
    else if isPlaneStress then fun j => nu / (nu - 1) * (eps1 j + eps2 j)
    else fun j => peak3.1 j * (1 / 1000000)
  let deltaEps3 : Option (Fin n → ℚ) :=
    if isPlaneStrain then some fun _ => 0
    else if isPlaneStress then none
    else some fun j => peak3.2 j * (1 / 1000000)
  match deltaEps3 with
  | none => .error .unboundLocal
  | some d3 => .ok (![eps1, eps2, eps3], ![deltaEps1, deltaEps2, d3])

/-! ## Histogram reducer (`reduce_hb2b_pyrs.py`, class `PyHB2BReduction`) -/

/-- Monotonicity test for an explicit numpy bin-edge array (`np.histogram` requires the
edges to increase monotonically). -/
def binsMonotone : List ℚ → Bool
  | [] => true
  | [_] => true
  | a :: b :: rest => decide (a ≤ b) && binsMonotone (b :: rest)

/-- Validity of an explicit numpy bin-edge array: at least two edges, monotone. -/
def binsValid (bins : List ℚ) : Bool :=
  decide (2 ≤ bins.length) && binsMonotone bins

/-- Summed weights of the data points falling into the bin `[lo, hi)`; the final bin is
closed on the right, standard `np.histogram` semantics. -/
def histBinWeight (data weights : List ℚ) (lo hi : ℚ) (isLast : Bool) : ℚ :=
  ((data.zip weights).filter fun dw =>
      decide (lo ≤ dw.1) && (decide (dw.1 < hi) || (isLast && decide (dw.1 = hi)))).foldl
    (fun acc dw => acc + dw.2) 0

/-- `np.histogram(data, bins=edges, weights=w)`: weighted histogram over an explicit
monotone bin-edge array; returns the histogram and the edge array. -/
def npHistogram (data bins weights : List ℚ) : Except PyErr (List ℚ × List ℚ) :=
  if binsValid bins then
    .ok ((List.range (bins.length - 1)).map fun i =>
      histBinWeight data weights (bins.getD i 0) (bins.getD (i + 1) 0)
        (decide (i = bins.length - 2)), bins)
  else .error .valueError

/-- `PyHB2BReduction.histogram_by_numpy` (lines 620-690).  The shape check is lines
635-637; the histogramming over the explicit 2θ bin vector is line 645.  In the
`norm_bins` branch the locals `num_bins` and `x_range` are only assigned inside the dead
`if False:` block (lines 641-643), so the pixel-count re-histogramming at line 662 raises
`UnboundLocalError` — the source's own FIXME comment (lines 655-661) records exactly this
failure, and neither the `< 0.1` pixel-count clamp (line 673) nor the division (line 675)
is ever reached.  The point-data conversion is lines 684-688 (unreachable bin-edge
underflow modelled as the numpy error). -/
def histogramByNumpy (pixel2thetaArray vecCounts twoThetaVec : List ℚ)
    (isPointData normBins : Bool) : Except PyErr (List ℚ × List ℚ) :=
  if pixel2thetaArray.length ≠ vecCounts.length then .error .shapeMismatch
  else
    match npHistogram pixel2thetaArray twoThetaVec vecCounts with
    | .error e => .error e
    | .ok (hist, binEdges) =>
      if normBins then .error .unboundLocal
      else if isPointData then
        match binEdges with
        | e0 :: e1 :: _ =>
            let deltaBin := e1 - e0
            .ok ((binEdges.map fun e => e + deltaBin * (1 / 2)).dropLast, hist)
        | _ => .error .valueError
      else .ok (binEdges, hist)

/-- `np.min` of a 1-D array (numpy raises `ValueError` on an empty array). -/
def npMin (l : List ℚ) : Except PyErr ℚ :=
  match l.min? with
  | some m => .ok m
  | none => .error .valueError

/-- `np.max` of a 1-D array (numpy raises `ValueError` on an empty array). -/
def npMax (l : List ℚ) : Except PyErr ℚ :=
  match l.max? with
  | some m => .ok m
  | none => .error .valueError

/-- Modelled from the spec: `pyrs.utilities.checkdatatypes.check_float_variable` is not
under src/ (only its callers are).  Per the specification's failure semantics (§4.3, §7) a
value outside its acceptable range fails immediately with an InvalidRange error; the value
is accepted when it lies within the acceptable range. -/
def checkFloatVariable (value lo hi : ℚ) : Except PyErr Unit :=
  if lo ≤ value ∧ value < hi then .ok () else .error .invalidRange

/-- `np.arange(start, stop, step)`: `⌈(stop - start) / step⌉` evenly spaced values starting
at `start`, excluding `stop`. -/
def npArange (start stop step : ℚ) : List ℚ :=
  (List.range ((stop - start) / step).ceil.toNat).map fun i => start + (i : ℚ) * step

/-- `PyHB2BReduction.generate_2theta_histogram_vector` (lines 400-427): an omitted endpoint
defaults to the observed min/max of the per-pixel 2θ vector (lines 407-414; the vector is
the owning instrument's `get_pixels_2theta(dimension=1)`, taken here as the argument), each
bound and the step are then validated (lines 416-419), a range with `min_2theta >=
max_2theta` raises (lines 421-423), and only then is the bin vector produced by `np.arange`
(line 425). -/
def generate2thetaHistogramVector (pixel2thetaVector : List ℚ)
    (min2theta max2theta : Option ℚ) (step2theta : ℚ) : Except PyErr (List ℚ) :=
  let minE : Except PyErr ℚ :=
    match min2theta with
    | some m => .ok m
    | none => npMin pixel2thetaVector
  let maxE : Except PyErr ℚ :=
    match max2theta with
    | some m => .ok m
    | none => npMax pixel2thetaVector
  match minE, maxE with
  | .error e, _ => .error e
  | .ok _, .error e => .error e
  | .ok mn, .ok mx =>
    match checkFloatVariable mn (-180) 180, checkFloatVariable mx (-180) 180,
          checkFloatVariable step2theta 0 180 with
    | .error e, _, _ => .error e
    | .ok _, .error e, _ => .error e
    | .ok _, .ok _, .error e => .error e
    | .ok _, .ok _, .ok _ =>
        if mn ≥ mx then .error .invalidRange
        else .ok (npArange mn mx step2theta)

/-! ## Scalar field sample (modelled from the spec) -/

/-- Modelled from the spec: `pyrs.dataobjects.fields.ScalarFieldSample` is not under src/
(only its unit tests are).  Spec §3/§4.4: a scalar field sample is five equal-length
sequences (value, error, x, y, z); construction validates the equal lengths, so the
invariant is carried in the structure. -/
structure ScalarFieldSample where
  values : List ℚ
  errors : List ℚ
  x : List ℚ
  y : List ℚ
  z : List ℚ
  errorsLen : errors.length = values.length
  xLen : x.length = values.length
  yLen : y.length = values.length
  zLen : z.length = values.length

/-- Number of sample points, `len(sample)`. -/
def ScalarFieldSample.length (s : ScalarFieldSample) : ℕ := s.values.length

/-- Modelled from the spec: `aggregate(other)` is "concatenation, preserving both samples'
points as-is, including duplicate/overlapping coordinates — no deduplication" (§4.4). -/
def ScalarFieldSample.aggregate (a b : ScalarFieldSample) : ScalarFieldSample where
  values := a.values ++ b.values
  errors := a.errors ++ b.errors
  x := a.x ++ b.x
  y := a.y ++ b.y
  z := a.z ++ b.z
  errorsLen := by simp [a.errorsLen, b.errorsLen]
  xLen := by simp [a.xLen, b.xLen]
  yLen := by simp [a.yLen, b.yLen]
  zLen := by simp [a.zLen, b.zLen]

/-! ## Theorems -/

theorem calRotationMatrixX_transpose (a : ℝ) :
    (calRotationMatrixX a)ᵀ =
      Matrix.of ![![1, 0, 0],
                  ![0, Real.cos a, Real.sin a],
                  ![0, -Real.sin a, Real.cos a]] := by
  ext i j
  fin_cases i <;> fin_cases j <;> rfl

theorem calRotationMatrixY_transpose (a : ℝ) :
    (calRotationMatrixY a)ᵀ =
      Matrix.of ![![Real.cos a, 0, -Real.sin a],
                  ![0, 1, 0],
                  ![Real.sin a, 0, Real.cos a]] := by
  ext i j
  fin_cases i <;> fin_cases j <;> rfl

theorem calRotationMatrixZ_transpose (a : ℝ) :
    (calRotationMatrixZ a)ᵀ =
      Matrix.of ![![Real.cos a, Real.sin a, 0],
                  ![-Real.sin a, Real.cos a, 0],
                  ![0, 0, 1]] := by
  ext i j
  fin_cases i <;> fin_cases j <;> rfl

theorem calRotationMatrixX_orthonormal (a : ℝ) :
    (calRotationMatrixX a)ᵀ * calRotationMatrixX a = 1 := by
  rw [calRotationMatrixX_transpose]
  ext i j
  fin_cases i <;> fin_cases j <;>
    simp [calRotationMatrixX, Matrix.mul_apply, Fin.sum_univ_three, Matrix.one_apply, Matrix.vecHead, Matrix.vecTail] <;>
    nlinarith [Real.sin_sq_add_cos_sq a]

theorem calRotationMatrixX_det (a : ℝ) : (calRotationMatrixX a).det = 1 := by
  simp [calRotationMatrixX, Matrix.det_fin_three]
  nlinarith [Real.sin_sq_add_cos_sq a]

theorem calRotationMatrixY_orthonormal (a : ℝ) :
    (calRotationMatrixY a)ᵀ * calRotationMatrixY a = 1 := by
  rw [calRotationMatrixY_transpose]
  ext i j
  fin_cases i <;> fin_cases j <;>
    simp [calRotationMatrixY, Matrix.mul_apply, Fin.sum_univ_three, Matrix.one_apply, Matrix.vecHead, Matrix.vecTail] <;>
    nlinarith [Real.sin_sq_add_cos_sq a]

theorem calRotationMatrixY_det (a : ℝ) : (calRotationMatrixY a).det = 1 := by
  simp [calRotationMatrixY, Matrix.det_fin_three]
  nlinarith [Real.sin_sq_add_cos_sq a]

theorem calRotationMatrixZ_orthonormal (a : ℝ) :
    (calRotationMatrixZ a)ᵀ * calRotationMatrixZ a = 1 := by
  rw [calRotationMatrixZ_transpose]
  ext i j
  fin_cases i <;> fin_cases j <;>
    simp [calRotationMatrixZ, Matrix.mul_apply, Fin.sum_univ_three, Matrix.one_apply, Matrix.vecHead, Matrix.vecTail] <;>
    nlinarith [Real.sin_sq_add_cos_sq a]

theorem calRotationMatrixZ_det (a : ℝ) : (calRotationMatrixZ a).det = 1 := by
  simp [calRotationMatrixZ, Matrix.det_fin_three]
  nlinarith [Real.sin_sq_add_cos_sq a]

theorem generateRotationMatrix_orthonormal (rx ry rz : ℝ) :
    (generateRotationMatrix rx ry rz)ᵀ * generateRotationMatrix rx ry rz = 1 := by
  have hx := calRotationMatrixX_orthonormal rx
  have hy := calRotationMatrixY_orthonormal ry
  have hz := calRotationMatrixZ_orthonormal rz
  calc (generateRotationMatrix rx ry rz)ᵀ * generateRotationMatrix rx ry rz
      = (calRotationMatrixZ rz)ᵀ *
          (((calRotationMatrixY ry)ᵀ *
            ((calRotationMatrixX rx)ᵀ * calRotationMatrixX rx) * calRotationMatrixY ry)) *
          calRotationMatrixZ rz := by
        simp [generateRotationMatrix, Matrix.transpose_mul, Matrix.mul_assoc]
    _ = 1 := by rw [hx]; simp [hy, hz]

theorem generateRotationMatrix_det (rx ry rz : ℝ) :
    (generateRotationMatrix rx ry rz).det = 1 := by
  simp [generateRotationMatrix, Matrix.det_mul,
        calRotationMatrixX_det, calRotationMatrixY_det, calRotationMatrixZ_det]

/-- Claim C5: for every angle and each axis X, Y, Z the rotation matrix `R` generated by
`_cal_rotation_matrix_x/_y/_z` satisfies `Rᵀ * R = 1` and `det R = 1`, and the composed
calibration rotation built by `generate_rotation_matrix` (X then Y then Z, by matrix
multiplication) is itself orthonormal with determinant 1. -/
theorem rotation_matrices_orthonormal_det_one (a rx ry rz : ℝ) :
    ((calRotationMatrixX a)ᵀ * calRotationMatrixX a = 1 ∧ (calRotationMatrixX a).det = 1) ∧
    ((calRotationMatrixY a)ᵀ * calRotationMatrixY a = 1 ∧ (calRotationMatrixY a).det = 1) ∧
    ((calRotationMatrixZ a)ᵀ * calRotationMatrixZ a = 1 ∧ (calRotationMatrixZ a).det = 1) ∧
    ((generateRotationMatrix rx ry rz)ᵀ * generateRotationMatrix rx ry rz = 1 ∧
      (generateRotationMatrix rx ry rz).det = 1) :=
  ⟨⟨calRotationMatrixX_orthonormal a, calRotationMatrixX_det a⟩,
   ⟨calRotationMatrixY_orthonormal a, calRotationMatrixY_det a⟩,
   ⟨calRotationMatrixZ_orthonormal a, calRotationMatrixZ_det a⟩,
   ⟨generateRotationMatrix_orthonormal rx ry rz, generateRotationMatrix_det rx ry rz⟩⟩

theorem rotateDetector_eq_mulVec (R : Matrix (Fin 3) (Fin 3) ℝ) (p : Fin 3 → ℝ) :
    rotateDetector R p = R.mulVec p := by
  funext i
  simp [rotateDetector, Matrix.mulVec, dotProduct]

/-- Claim C6: `build_instrument` applies the transformations to a raw pixel in this exact
order — with a calibration, translate X and Y by the center shifts, rotate about the origin
by the composed calibration rotation, then translate along Z by (arm length + center shift
Z); with no calibration, translate along Z by the arm length only; finally rotate about the
Y axis by 2θ converted to radians. -/
theorem build_instrument_transform_order (armLength twoTheta : ℝ)
    (calibration : Option AnglerCameraDetectorShift) (p : Fin 3 → ℝ) :
    buildInstrumentPixel armLength twoTheta calibration p =
      buildInstrumentPixelSpec armLength twoTheta calibration p := by
  cases calibration with
  | none =>
      simp only [buildInstrumentPixel, buildInstrumentPixelSpec, translateZ,
        rotateDetector_eq_mulVec]
  | some calib =>
      simp only [buildInstrumentPixel, buildInstrumentPixelSpec, translateZ, translateXY,
        rotateDetector_eq_mulVec]

/-- Claim C7: the per-pixel diffraction angle is the arccos, in degrees, of the normalized
pixel position dotted with the incident-beam direction (0, 0, 1); a pixel at the beam
direction scaled by the arm length yields 2θ = 0 and an antiparallel pixel yields 2θ = 180. -/
theorem pixel_2theta_roundtrip (armLength : ℝ) (h : 0 < armLength) :
    calculatePixel2theta ![0, 0, armLength] = 0 ∧
    calculatePixel2theta ![0, 0, -armLength] = 180 := by
  have hnorm : Real.sqrt ((0:ℝ) ^ 2 + 0 ^ 2 + armLength ^ 2) = armLength := by
    rw [show (0:ℝ) ^ 2 + 0 ^ 2 + armLength ^ 2 = armLength ^ 2 by ring]
    exact Real.sqrt_sq h.le
  have hnormneg : Real.sqrt ((0:ℝ) ^ 2 + 0 ^ 2 + (-armLength) ^ 2) = armLength := by
    rw [show (0:ℝ) ^ 2 + 0 ^ 2 + (-armLength) ^ 2 = armLength ^ 2 by ring]
    exact Real.sqrt_sq h.le
  constructor
  · simp only [calculatePixel2theta, Matrix.cons_val_zero, Matrix.cons_val_one,
      Matrix.head_cons, Matrix.cons_val_two, Matrix.tail_cons, hnorm]
    rw [show armLength / armLength = 1 by field_simp]
    norm_num [Real.arccos_one]
  · simp only [calculatePixel2theta, Matrix.cons_val_zero, Matrix.cons_val_one,
      Matrix.head_cons, Matrix.cons_val_two, Matrix.tail_cons, hnormneg]
    rw [show -armLength / armLength = -1 by field_simp]
    simp [Real.arccos_neg_one]
    field_simp

theorem pixel_2theta_roundtrip_witness :
    (0:ℝ) < 1 ∧
    (calculatePixel2theta ![0, 0, 1] = 0 ∧ calculatePixel2theta ![0, 0, -1] = 180) :=
  ⟨one_pos, pixel_2theta_roundtrip 1 one_pos⟩

/-- Claim C8: each position/angle getter fails with the NotBuilt error on a freshly
constructed instrument, and `get_dspacing_value` on a built instrument whose wavelength was
never set fails with the missing-wavelength error; no getter returns a value in these
states. -/
theorem getters_before_build_and_missing_wavelength (armLength twoTheta : ℝ)
    (raw : List (Fin 3 → ℝ)) (p : Fin 3 → ℝ) (ps : List (Fin 3 → ℝ))
    (calibration : Option AnglerCameraDetectorShift) :
    getPixelMatrix (mkInstrument armLength raw) = .error .notBuilt ∧
    getPixelArray (mkInstrument armLength raw) = .error .notBuilt ∧
    getPixels2theta (mkInstrument armLength raw) = .error .notBuilt ∧
    getDspacingValue
        (buildInstrument (mkInstrument armLength (p :: ps)) twoTheta calibration) =
      .error .missingWavelength := by
  refine ⟨rfl, rfl, rfl, ?_⟩
  simp [getDspacingValue, getPixels2theta, buildInstrument, mkInstrument]

/-- Claim C1 (refuted as stated, code bug): `_calculate_stress_component` never produces a
stress value at all — the expression `self._E / (1 + self._nu)(...)` at line 188 applies
the float `1 + nu` to the strain expression (a `*` is missing), so every diagonal-mode
stress computation raises `TypeError` instead of computing Hooke's law. -/
theorem calculate_stress_component_raises_type_error (n : ℕ) (youngModulus nu : ℚ)
    (epsilon : Fin 3 → Fin n → ℚ) (direction : Fin 3) :
    calculateStressComponent n youngModulus nu epsilon direction = .error .typeError := rfl

/-- Claim C2 (refuted as stated, code bug): with ν = 1/3 and E = 4/3 (so `E/(1+ν) = 1` and
`ν/(1−2ν) = 1`), one point of zero strain in all three directions and strain error 1 in all
three directions, `_calculate_stress_component_error` yields 1, not the √6 · Δε = √6 the
claim requires — the quantities it combines are not the analytic Hooke partial
derivatives. -/
theorem stress_error_not_sqrt_six :
    calculateStressComponentError 1 (4/3) (1/3) (fun _ _ => 0) (fun _ _ => 1) 0 1 2 0 = 1 ∧
    calculateStressComponentError 1 (4/3) (1/3) (fun _ _ => 0) (fun _ _ => 1) 0 1 2 0 ≠
      Real.sqrt 6 * 1 := by
  have hval :
      calculateStressComponentError 1 (4/3) (1/3) (fun _ _ => 0) (fun _ _ => 1) 0 1 2 0 = 1 := by
    norm_num [calculateStressComponentError, Real.sqrt_one]
  refine ⟨hval, ?_⟩
  rw [hval, mul_one]
  intro hcontra
  have h6 : (1:ℝ) < Real.sqrt 6 := by
    rw [show (1:ℝ) = Real.sqrt 1 from (Real.sqrt_one).symm]
    exact Real.sqrt_lt_sqrt (by norm_num) (by norm_num)
  rw [← hcontra] at h6
  exact lt_irrefl 1 h6

/-- Claim C3 (refuted as stated, code bug): in in-plane-stress mode
`_setup_strain_stress_matrix` assigns `eps_3 = nu/(nu-1)·(eps_1+eps_2)` but never assigns
`delta_eps_3`, so the assignment `self._epsilon_error[2] = delta_eps_3` at line 147 raises
`UnboundLocalError` for every input; no 33-direction stress value or error (zero or
otherwise) is ever produced. -/
theorem setup_strain_stress_matrix_plane_stress_unbound (n : ℕ) (nu : ℚ)
    (peak1 peak2 peak3 : (Fin n → ℚ) × (Fin n → ℚ)) :
    setupStrainStressMatrix n nu peak1 peak2 peak3 false true = .error .unboundLocal := rfl

/-- Claim C4 (refuted as stated, code bug): whenever `histogram_by_numpy` is called with
`norm_bins=True` on shape-consistent inputs and a valid bin vector, it raises
`UnboundLocalError` (the locals `num_bins` and `x_range` used at line 662 are assigned only
inside the dead `if False:` block) — the per-bin pixel-count normalization, including the
`count < 0.1` clamp, is never reached. -/
theorem histogram_normalization_raises_unbound_local
    (pixel2thetaArray vecCounts twoThetaVec : List ℚ) (isPointData : Bool)
    (hlen : pixel2thetaArray.length = vecCounts.length)
    (hbins : binsValid twoThetaVec = true) :
    histogramByNumpy pixel2thetaArray vecCounts twoThetaVec isPointData true =
      .error .unboundLocal := by
  simp [histogramByNumpy, npHistogram, hlen, hbins]

theorem histogram_normalization_witness :
    ([(1:ℚ), 2].length = [(3:ℚ), 4].length ∧ binsValid [(0:ℚ), 1, 2] = true) ∧
    histogramByNumpy [1, 2] [3, 4] [0, 1, 2] false true = .error .unboundLocal :=
  ⟨⟨rfl, by decide⟩,
   histogram_normalization_raises_unbound_local [1, 2] [3, 4] [0, 1, 2] false rfl
     (by decide)⟩

/-- Claim C9: generating the histogram bin vector with an explicit range whose minimum is
not below its maximum fails with the InvalidRange error (producing no bin vector), while an
omitted minimum (or maximum) endpoint is replaced by the observed minimum (or maximum)
per-pixel angle before any validation happens. -/
theorem histogram_vector_invalid_range_and_defaults
    (pixel2thetaVector : List ℚ) (mn mx step : ℚ) (minOpt maxOpt : Option ℚ) :
    (mn ≥ mx →
      generate2thetaHistogramVector pixel2thetaVector (some mn) (some mx) step =
        .error .invalidRange) ∧
    (∀ m, pixel2thetaVector.min? = some m →
      generate2thetaHistogramVector pixel2thetaVector none maxOpt step =
        generate2thetaHistogramVector pixel2thetaVector (some m) maxOpt step) ∧
    (∀ m, pixel2thetaVector.max? = some m →
      generate2thetaHistogramVector pixel2thetaVector minOpt none step =
        generate2thetaHistogramVector pixel2thetaVector minOpt (some m) step) := by
  refine ⟨fun h => ?_, fun m hm => ?_, fun m hm => ?_⟩
  · by_cases h1 : (-180:ℚ) ≤ mn ∧ mn < 180 <;> by_cases h2 : (-180:ℚ) ≤ mx ∧ mx < 180 <;>
      by_cases h3 : (0:ℚ) ≤ step ∧ step < 180 <;>
      simp [generate2thetaHistogramVector, checkFloatVariable, h1, h2, h3, h]
  · simp [generate2thetaHistogramVector, npMin, hm]
  · simp [generate2thetaHistogramVector, npMax, hm]

theorem histogram_vector_witness :
    (((3:ℚ) ≥ 2 ∧
      generate2thetaHistogramVector [] (some 3) (some 2) 1 = .error .invalidRange) ∧
     (List.min? [(5:ℚ)] = some 5 ∧
      generate2thetaHistogramVector [5] none (some 7) 1 =
        generate2thetaHistogramVector [5] (some 5) (some 7) 1) ∧
     (List.max? [(5:ℚ)] = some 5 ∧
      generate2thetaHistogramVector [5] (some 1) none 1 =
        generate2thetaHistogramVector [5] (some 1) (some 5) 1)) :=
  ⟨⟨by decide,
    (histogram_vector_invalid_range_and_defaults [] 3 2 1 none none).1 (by decide)⟩,
   ⟨rfl, (histogram_vector_invalid_range_and_defaults [5] 0 0 1 none (some 7)).2.1 5 rfl⟩,
   ⟨rfl, (histogram_vector_invalid_range_and_defaults [5] 0 0 1 (some 1) none).2.2 5 rfl⟩⟩

/-- Claim C10: aggregation of two scalar field samples concatenates the point sequences with
no deduplication, so the length of the aggregate is always the sum of the two lengths. -/
theorem aggregate_length_law (a b : ScalarFieldSample) :
    (a.aggregate b).length = a.length + b.length := by
  simp [ScalarFieldSample.aggregate, ScalarFieldSample.length]

end PyRS
